import Mathlib

/-! # rfping-lambda: ping recorder

A shallow embedding of `src/rfping-lambda/main.go` and the properties of its
`router`, `record` and `list` handlers.

Go strings reach the handlers from the JSON event of the function host, whose decoder
yields valid UTF-8, so a Go string is modelled by a Lean `String` (a list of Unicode
code points).  Go's `int` is modelled by `Int`.  A Go `map[string]string` is modelled by
an association list, the nil map by `[]`.
-/

namespace RFPing

/-! ## Package `regexp`: the fragment used by the three package-level patterns -/

/-- Bracket expression such as `[0-9a-zA-Z]` or `[^ \t]`: a list of inclusive ranges,
possibly negated. -/
structure CharClass where
  negated : Bool
  ranges : List (Char × Char)

/-- Whether a code point belongs to the bracket expression. -/
def CharClass.test (cc : CharClass) (c : Char) : Bool :=
  xor cc.negated (cc.ranges.any fun r => decide (r.1 ≤ c) && decide (c ≤ r.2))

/-- Regular expressions; `void` (no match at all) and `alt` arise from derivatives. -/
inductive Regexp where
  | void : Regexp
  | eps : Regexp
  | cls : CharClass → Regexp
  | cat : Regexp → Regexp → Regexp
  | alt : Regexp → Regexp → Regexp
  | star : Regexp → Regexp

namespace Regexp

/-- The operator `x+`: one or more `x`. -/
def plus (r : Regexp) : Regexp := cat r (star r)

/-- The operator `x{n}`: exactly `n` times `x`. -/
def rep (r : Regexp) : Nat → Regexp
  | 0 => eps
  | n + 1 => cat r (rep r n)

/-- Whether the expression matches the empty string. -/
def nullable : Regexp → Bool
  | void => false
  | eps => true
  | cls _ => false
  | cat a b => nullable a && nullable b
  | alt a b => nullable a || nullable b
  | star _ => true

/-- Brzozowski derivative: what remains to be matched after reading `c`. -/
def deriv (c : Char) : Regexp → Regexp
  | void => void
  | eps => void
  | cls cc => if cc.test c then eps else void
  | cat a b => if nullable a then alt (cat (deriv c a) b) (deriv c b) else cat (deriv c a) b
  | alt a b => alt (deriv c a) (deriv c b)
  | star a => cat (deriv c a) (star a)

/-- Whether some leading part of the input matches the expression. -/
def matchHere : Regexp → List Char → Bool
  | r, [] => nullable r
  | r, c :: cs => nullable r || matchHere (deriv c r) cs

/-- Whether a match starts at some position of the input (an unanchored search). -/
def search (r : Regexp) : List Char → Bool
  | [] => matchHere r []
  | c :: cs => matchHere r (c :: cs) || search r cs

/-- The method `(*Regexp).MatchString`: whether the string contains any match. -/
def MatchString (r : Regexp) (s : String) : Bool := search r s.data

/-- The strings an expression denotes (its language). -/
def Matches : Regexp → List Char → Prop
  | void, _ => False
  | eps, s => s = []
  | cls cc, s => ∃ c, s = [c] ∧ cc.test c = true
  | cat a b, s => ∃ u v, s = u ++ v ∧ Matches a u ∧ Matches b v
  | alt a b, s => Matches a s ∨ Matches b s
  | star a, s => ∃ L : List (List Char), s = L.flatten ∧ ∀ u ∈ L, Matches a u

end Regexp

/-- The pattern of `pathRegexp`, `[0-9a-zA-Z]+`. -/
def pathRegexp : Regexp :=
  Regexp.plus (Regexp.cls ⟨false, [('0', '9'), ('a', 'z'), ('A', 'Z')]⟩)

/-- The pattern of `codeRegexp`, `[0-9]{3}`. -/
def codeRegexp : Regexp :=
  Regexp.rep (Regexp.cls ⟨false, [('0', '9')]⟩) 3

/-- The pattern of `locationRegexp`, `[^ \t\r\n\v\f]`. -/
def locationRegexp : Regexp :=
  Regexp.cls ⟨true, [(' ', ' '), ('\t', '\t'), ('\r', '\r'), ('\n', '\n'),
    (Char.ofNat 11, Char.ofNat 11), (Char.ofNat 12, Char.ofNat 12)]⟩

/-! ## Package `strconv` -/

/-- Go `error` values that occur in the program. -/
inductive GoError where
  /-- The `*strconv.NumError` of function `fn` on input `num`. -/
  | numError (fn num : String) : GoError
  /-- An error reported by the storage service client. -/
  | aws (msg : String) : GoError
  deriving DecidableEq, Repr

/-- Value of a run of decimal digits, most significant first. -/
def digitsValue (ds : List Char) : Nat :=
  ds.foldl (fun n c => 10 * n + (c.toNat - '0'.toNat)) 0

/-- The function `strconv.Atoi` for a 64-bit `int`: an optional sign, then one or more
decimal digits, the value within the range of `int`; anything else is a `NumError`. -/
def Atoi (s : String) : Except GoError Int :=
  let body : List Char → Bool → Except GoError Int := fun ds neg =>
    if ds.isEmpty || !ds.all Char.isDigit then .error (.numError "Atoi" s)
    else
      let un := digitsValue ds
      if !neg && un ≥ 2 ^ 63 then .error (.numError "Atoi" s)
      else if neg && un > 2 ^ 63 then .error (.numError "Atoi" s)
      else .ok (if neg then -(un : Int) else (un : Int))
  match s.data with
  | '-' :: ds => body ds true
  | '+' :: ds => body ds false
  | ds => body ds false

/-! ## Package `net/http` -/

/-- The function `http.StatusText`: the text of a known status code, else `""`. -/
def StatusText (code : Int) : String :=
  match code with
  | 100 => "Continue"
  | 101 => "Switching Protocols"
  | 102 => "Processing"
  | 103 => "Early Hints"
  | 200 => "OK"
  | 201 => "Created"
  | 202 => "Accepted"
  | 203 => "Non-Authoritative Information"
  | 204 => "No Content"
  | 205 => "Reset Content"
  | 206 => "Partial Content"
  | 207 => "Multi-Status"
  | 208 => "Already Reported"
  | 226 => "IM Used"
  | 300 => "Multiple Choices"
  | 301 => "Moved Permanently"
  | 302 => "Found"
  | 303 => "See Other"
  | 304 => "Not Modified"
  | 305 => "Use Proxy"
  | 307 => "Temporary Redirect"
  | 308 => "Permanent Redirect"
  | 400 => "Bad Request"
  | 401 => "Unauthorized"
  | 402 => "Payment Required"
  | 403 => "Forbidden"
  | 404 => "Not Found"
  | 405 => "Method Not Allowed"
  | 406 => "Not Acceptable"
  | 407 => "Proxy Authentication Required"
  | 408 => "Request Timeout"
  | 409 => "Conflict"
  | 410 => "Gone"
  | 411 => "Length Required"
  | 412 => "Precondition Failed"
  | 413 => "Request Entity Too Large"
  | 414 => "Request URI Too Long"
  | 415 => "Unsupported Media Type"
  | 416 => "Requested Range Not Satisfiable"
  | 417 => "Expectation Failed"
  | 418 => "I\x27m a teapot"
  | 421 => "Misdirected Request"
  | 422 => "Unprocessable Entity"
  | 423 => "Locked"
  | 424 => "Failed Dependency"
  | 425 => "Too Early"
  | 426 => "Upgrade Required"
  | 428 => "Precondition Required"
  | 429 => "Too Many Requests"
  | 431 => "Request Header Fields Too Large"
  | 451 => "Unavailable For Legal Reasons"
  | 500 => "Internal Server Error"
  | 501 => "Not Implemented"
  | 502 => "Bad Gateway"
  | 503 => "Service Unavailable"
  | 504 => "Gateway Timeout"
  | 505 => "HTTP Version Not Supported"
  | 506 => "Variant Also Negotiates"
  | 507 => "Insufficient Storage"
  | 508 => "Loop Detected"
  | 510 => "Not Extended"
  | 511 => "Network Authentication Required"
  | _ => ""

/-- The constant `http.StatusOK`. -/
def StatusOK : Int := 200

/-- The constant `http.StatusBadRequest`. -/
def StatusBadRequest : Int := 400

/-- The constant `http.StatusInternalServerError`. -/
def StatusInternalServerError : Int := 500

/-! ## The record type and package `encoding/json` -/

/-- Client structure for dynamodb. -/
structure Client where
  UUID : String
  Path : String
  IP : String
  Time : String
  deriving DecidableEq, Repr

/-- Lower-case hexadecimal digit of a number below 16. -/
def hexDigit (n : Nat) : Char :=
  if n < 10 then Char.ofNat ('0'.toNat + n) else Char.ofNat ('a'.toNat + (n - 10))

/-- How `json.Marshal` writes one code point inside a string literal (HTML escaping on,
as `json.Marshal` has it): the quote and the backslash get a backslash, the control
characters and `<`, `>`, `&` become escapes, as do U+2028 and U+2029.  The short forms
`\b` and `\f` are those of Go 1.22 and later; earlier releases wrote `\u0008` and
`\u000c`. -/
def jsonEscapeChar (c : Char) : List Char :=
  if c = '"' ∨ c = '\\' then ['\\', c]
  else if c = Char.ofNat 8 then ['\\', 'b']
  else if c = Char.ofNat 12 then ['\\', 'f']
  else if c = '\n' then ['\\', 'n']
  else if c = '\r' then ['\\', 'r']
  else if c = '\t' then ['\\', 't']
  else if c.toNat < 32 ∨ c = '<' ∨ c = '>' ∨ c = '&' then
    ['\\', 'u', '0', '0', hexDigit (c.toNat / 16), hexDigit (c.toNat % 16)]
  else if c = Char.ofNat 8232 ∨ c = Char.ofNat 8233 then
    ['\\', 'u', '2', '0', '2', hexDigit (c.toNat % 16)]
  else [c]

/-- The content of a JSON string literal for `s`, without the surrounding quotes. -/
def jsonEscape (s : List Char) : List Char :=
  (s.map jsonEscapeChar).flatten

/-- JSON string literal for `s`. -/
def jsonString (s : String) : List Char :=
  '"' :: jsonEscape s.data ++ ['"']

/-- JSON object of a `Client`, the keys being those of the `json` field tags, in the
order of the fields. -/
def jsonClient (cl : Client) : List Char :=
  "\x7b\"Uuid\":".data ++ jsonString cl.UUID ++ ",\"Path\":".data ++ jsonString cl.Path
    ++ ",\"IP\":".data ++ jsonString cl.IP ++ ",\"Time\":".data ++ jsonString cl.Time
    ++ "\x7d".data

/-- The call `json.Marshal(cl)` on a `Client`; four string fields never fail to encode. -/
def jsonMarshalClient (cl : Client) : String × Option GoError :=
  (String.mk (jsonClient cl), none)

/-- A Go slice of `Client`; `none` is the nil slice. -/
abbrev ClientSlice := Option (List Client)

/-- The builtin `append(s, x)`. -/
def goAppend (s : ClientSlice) (x : Client) : ClientSlice :=
  match s with
  | none => some [x]
  | some l => some (l ++ [x])

/-- The call `json.Marshal(clientArray)` on a `[]Client`: the nil slice encodes as
`null`, any other slice as an array of the objects of its elements. -/
def jsonMarshalClients (s : ClientSlice) : String × Option GoError :=
  match s with
  | none => ("null", none)
  | some l => (String.mk ('[' :: (List.intersperse [','] (l.map jsonClient)).flatten ++ [']']),
      none)

/-! ## Package `events`: the request and response of the function host -/

/-- The field `RequestContext.Identity` of the request, as far as the program reads it. -/
structure APIGatewayRequestIdentity where
  SourceIP : String
  deriving DecidableEq, Repr

/-- The field `RequestContext` of the request, as far as the program reads it. -/
structure APIGatewayProxyRequestContext where
  Identity : APIGatewayRequestIdentity
  deriving DecidableEq, Repr

/-- The type `events.APIGatewayProxyRequest`, as far as the program reads it. -/
structure APIGatewayProxyRequest where
  HTTPMethod : String
  Path : String
  QueryStringParameters : List (String × String)
  RequestContext : APIGatewayProxyRequestContext
  deriving DecidableEq, Repr

/-- The type `events.APIGatewayProxyResponse`, as far as the program sets it. -/
structure APIGatewayProxyResponse where
  StatusCode : Int
  Headers : List (String × String)
  Body : String
  deriving DecidableEq, Repr

/-- Indexing a Go `map[string]string`: the value of the key, `""` when it is absent. -/
def mapIndex (m : List (String × String)) (k : String) : String :=
  (m.lookup k).getD ""

/-! ## The collaborators: storage service, marshalling of items, identifier, clock -/

/-- Everything the handlers obtain from outside during one invocation.  `Item` is the
attribute map of the storage service. -/
structure Env (Item : Type) where
  /-- Result of `db.Scan` on the named table. -/
  Scan : String → Except GoError (List Item)
  /-- Error (or nil) of `db.PutItem` for the named table and item. -/
  PutItem : String → Item → Option GoError
  /-- The function `dynamodbattribute.MarshalMap`. -/
  MarshalMap : Client → Item × Option GoError
  /-- The function `dynamodbattribute.UnmarshalMap` into a zero `Client`: the client it
  leaves behind, and its error. -/
  UnmarshalMap : Item → Client × Option GoError
  /-- Result of `uuid.New().String()`. -/
  uuid : String
  /-- Result of `time.Now().String()`. -/
  now : String

/-- A call made to the storage service. -/
inductive Call (Item : Type) where
  | scan (table : String) : Call Item
  | putItem (table : String) (item : Item) : Call Item
  deriving DecidableEq, Repr

/-- What a handler returns and does: the response, the transport error, the calls made
to the storage service in order, and the errors printed by `errorLogger`. -/
structure Outcome (Item : Type) where
  resp : APIGatewayProxyResponse
  err : Option GoError
  calls : List (Call Item)
  logged : List GoError
  deriving DecidableEq, Repr

/-! ## The program -/

section Program
variable {Item : Type}

/-- Function `listItems`: the JSON text and the error, and the storage calls made. -/
def listItems (env : Env Item) : (String × Option GoError) × List (Call Item) :=
  match env.Scan "Clients" with
  | .error e => (("", some e), [Call.scan "Clients"])
  | .ok items =>
    let clientArray : ClientSlice :=
      items.foldl (fun arr i => goAppend arr (env.UnmarshalMap i).1) none
    (jsonMarshalClients clientArray, [Call.scan "Clients"])

/-- Function `putItem`: the error of the write, and the storage calls made.  The error of
`MarshalMap` is overwritten by that of `db.PutItem`. -/
def putItem (env : Env Item) (cl : Client) : Option GoError × List (Call Item) :=
  let value := (env.MarshalMap cl).1
  (env.PutItem "Clients" value, [Call.putItem "Clients" value])

/-- Function `serverError`, after the calls `calls` were made. -/
def serverError (e : GoError) (calls : List (Call Item)) : Outcome Item :=
  { resp := { StatusCode := StatusInternalServerError, Headers := [],
              Body := StatusText StatusInternalServerError },
    err := none, calls := calls, logged := [e] }

/-- Function `clientError`, after the calls `calls` were made. -/
def clientError (status : Int) (calls : List (Call Item)) : Outcome Item :=
  { resp := { StatusCode := status, Headers := [], Body := StatusText status },
    err := none, calls := calls, logged := [] }

/-- Function `list`. -/
def list (env : Env Item) (_req : APIGatewayProxyRequest) : Outcome Item :=
  match listItems env with
  | ((_, some e), calls) => serverError e calls
  | ((result, none), calls) =>
    { resp := { StatusCode := StatusOK, Headers := [], Body := result },
      err := none, calls := calls, logged := [] }

/-- The value of `respCode` in `record` before it is parsed. -/
def respCode (req : APIGatewayProxyRequest) : String :=
  let respCode := mapIndex req.QueryStringParameters "code"
  if !codeRegexp.MatchString respCode then "200" else respCode

/-- The value of `location` in `record` when the headers are chosen. -/
def location (req : APIGatewayProxyRequest) : String :=
  let location := mapIndex req.QueryStringParameters "location"
  if !locationRegexp.MatchString location then "/none" else location

/-- The value of `header` in `record`. -/
def header (req : APIGatewayProxyRequest) : List (String × String) :=
  let location := location req
  if location ≠ "/none" ∧ location.utf8ByteSize ≠ 0 then
    [("Location", location), ("X-RFPing-Received", "REDIR")]
  else
    [("X-RFPing-Received", "OK")]

/-- The value of `cl` in `record`. -/
def cl (env : Env Item) (req : APIGatewayProxyRequest) : Client :=
  { UUID := env.uuid, Path := req.Path, IP := req.RequestContext.Identity.SourceIP,
    Time := env.now }

/-- Function `record`. -/
def record (env : Env Item) (req : APIGatewayProxyRequest) : Outcome Item :=
  let path := req.Path
  if !pathRegexp.MatchString path then clientError StatusBadRequest []
  else
    let header := header req
    match Atoi (respCode req) with
    | .error e => serverError e []
    | .ok statCode =>
      let cl : Client := cl env req
      match jsonMarshalClient cl with
      | (_, some e) => serverError e []
      | (cls, none) =>
        match putItem env cl with
        | (some e, calls) => serverError e calls
        | (none, calls) =>
          { resp := { StatusCode := statCode, Headers := header, Body := cls },
            err := none, calls := calls, logged := [] }

/-- Function `router`. -/
def router (env : Env Item) (req : APIGatewayProxyRequest) : Outcome Item :=
  if req.HTTPMethod = "OPTIONS" then list env req else record env req

end Program

/-! ## Sample collaborators and requests -/

/-- A storage service whose items are the clients themselves: it scans `items`, its
writes return `putErr`, and its scan fails when `scanErr` is set. -/
def memEnv (items : List Client) (putErr scanErr : Option GoError) : Env Client :=
  { Scan := fun _ =>
      match scanErr with
      | some e => .error e
      | none => .ok items,
    PutItem := fun _ _ => putErr,
    MarshalMap := fun c => (c, none),
    UnmarshalMap := fun c => (c, none),
    uuid := "123e4567-e89b-42d3-a456-426614174000",
    now := "2020-05-01 10:00:00 +0000 UTC" }

/-- A request with the given method, path and query parameters, from 203.0.113.7. -/
def sampleRequest (method path : String) (query : List (String × String)) :
    APIGatewayProxyRequest :=
  { HTTPMethod := method, Path := path, QueryStringParameters := query,
    RequestContext := { Identity := { SourceIP := "203.0.113.7" } } }

/-! ## The matcher decides the language of an expression -/

namespace Regexp

theorem nullable_iff (r : Regexp) : r.nullable = true ↔ r.Matches [] := by
  induction r with
  | void => simp [nullable, Matches]
  | eps => simp [nullable, Matches]
  | cls cc => simp [nullable, Matches]
  | cat a b iha ihb =>
    simp only [nullable, Matches, Bool.and_eq_true, iha, ihb]
    constructor
    · rintro ⟨ha, hb⟩
      exact ⟨[], [], rfl, ha, hb⟩
    · rintro ⟨u, v, huv, ha, hb⟩
      have h := List.append_eq_nil.mp huv.symm
      rw [h.1] at ha
      rw [h.2] at hb
      exact ⟨ha, hb⟩
  | alt a b iha ihb => simp only [nullable, Matches, Bool.or_eq_true, iha, ihb]
  | star a _ =>
    simp only [nullable, Matches, true_iff]
    exact ⟨[], rfl, by simp⟩

theorem star_cons_iff (a : Regexp) (c : Char) (s : List Char) :
    (star a).Matches (c :: s) ↔
      ∃ u v, s = u ++ v ∧ a.Matches (c :: u) ∧ (star a).Matches v := by
  constructor
  · rintro ⟨L, hL, hall⟩
    induction L with
    | nil => simp at hL
    | cons w L ih =>
      cases w with
      | nil =>
        apply ih
        · simpa using hL
        · intro u hu
          exact hall u (List.mem_cons_of_mem _ hu)
      | cons d w =>
        simp only [List.flatten_cons, List.cons_append, List.cons.injEq] at hL
        obtain ⟨hd, hs⟩ := hL
        subst hd
        refine ⟨w, L.flatten, hs, hall _ (List.mem_cons_self _ _), L, rfl, ?_⟩
        intro u hu
        exact hall u (List.mem_cons_of_mem _ hu)
  · rintro ⟨u, v, hs, hu, L, hv, hall⟩
    refine ⟨(c :: u) :: L, ?_, ?_⟩
    · simp [hs, hv]
    · intro w hw
      rcases List.mem_cons.mp hw with h | h
      · rw [h]; exact hu
      · exact hall w h

theorem deriv_iff (c : Char) (r : Regexp) :
    ∀ s : List Char, (r.deriv c).Matches s ↔ r.Matches (c :: s) := by
  induction r with
  | void => intro s; simp [deriv, Matches]
  | eps => intro s; simp [deriv, Matches]
  | cls cc =>
    intro s
    by_cases h : cc.test c = true
    · simp only [deriv, h, if_true, Matches]
      constructor
      · intro hs
        exact ⟨c, by rw [hs], h⟩
      · rintro ⟨d, hd, _⟩
        simp only [List.cons.injEq] at hd
        exact hd.2
    · simp only [deriv, h, Matches, false_iff]
      rintro ⟨d, hd, ht⟩
      simp only [List.cons.injEq] at hd
      rw [← hd.1] at ht
      exact h ht
  | alt a b iha ihb => intro s; simp only [deriv, Matches, iha, ihb]
  | star a iha =>
    intro s
    rw [star_cons_iff]
    simp only [deriv, Matches, iha]
  | cat a b iha ihb =>
    intro s
    have key : (cat a b).Matches (c :: s) ↔
        (∃ u v, s = u ++ v ∧ a.Matches (c :: u) ∧ b.Matches v) ∨
          (a.Matches [] ∧ b.Matches (c :: s)) := by
      constructor
      · rintro ⟨u, v, huv, ha, hb⟩
        cases u with
        | nil =>
          right
          simp only [List.nil_append] at huv
          rw [huv]
          exact ⟨ha, hb⟩
        | cons d u =>
          left
          simp only [List.cons_append, List.cons.injEq] at huv
          obtain ⟨hd, hs⟩ := huv
          subst hd
          exact ⟨u, v, hs, ha, hb⟩
      · rintro (⟨u, v, hs, ha, hb⟩ | ⟨ha, hb⟩)
        · exact ⟨c :: u, v, by simp [hs], ha, hb⟩
        · exact ⟨[], c :: s, rfl, ha, hb⟩
    rw [key]
    by_cases hn : a.nullable = true
    · have hn' := (nullable_iff a).mp hn
      simp only [deriv, hn, if_true, Matches, iha, ihb, hn', true_and]
    · have hn' : ¬ a.Matches [] := fun h => hn ((nullable_iff a).mpr h)
      simp only [deriv, hn, Matches, iha, hn', false_and, or_false]

theorem matchHere_iff (s : List Char) :
    ∀ r : Regexp, r.matchHere s = true ↔ ∃ u v, s = u ++ v ∧ r.Matches u := by
  induction s with
  | nil =>
    intro r
    simp only [matchHere, nullable_iff]
    constructor
    · intro h
      exact ⟨[], [], rfl, h⟩
    · rintro ⟨u, v, huv, h⟩
      have h0 := List.append_eq_nil.mp huv.symm
      rw [h0.1] at h
      exact h
  | cons c s ih =>
    intro r
    simp only [matchHere, Bool.or_eq_true, nullable_iff, ih]
    constructor
    · rintro (h | ⟨u, v, hs, h⟩)
      · exact ⟨[], c :: s, rfl, h⟩
      · exact ⟨c :: u, v, by simp [hs], (deriv_iff c r u).mp h⟩
    · rintro ⟨u, v, huv, h⟩
      cases u with
      | nil => left; exact h
      | cons d u =>
        right
        simp only [List.cons_append, List.cons.injEq] at huv
        obtain ⟨hd, hs⟩ := huv
        subst hd
        exact ⟨u, v, hs, (deriv_iff c r u).mpr h⟩

theorem search_iff (r : Regexp) (s : List Char) :
    r.search s = true ↔ ∃ p u v, s = p ++ (u ++ v) ∧ r.Matches u := by
  induction s with
  | nil =>
    simp only [search, matchHere_iff]
    constructor
    · rintro ⟨u, v, huv, h⟩
      exact ⟨[], u, v, huv, h⟩
    · rintro ⟨p, u, v, hs, h⟩
      have h0 := List.append_eq_nil.mp hs.symm
      exact ⟨u, v, h0.2.symm, h⟩
  | cons c s ih =>
    simp only [search, Bool.or_eq_true, matchHere_iff, ih]
    constructor
    · rintro (⟨u, v, huv, h⟩ | ⟨p, u, v, hs, h⟩)
      · exact ⟨[], u, v, huv, h⟩
      · exact ⟨c :: p, u, v, by simp [hs], h⟩
    · rintro ⟨p, u, v, hs, h⟩
      cases p with
      | nil => left; exact ⟨u, v, hs, h⟩
      | cons d p =>
        right
        simp only [List.cons_append, List.cons.injEq] at hs
        exact ⟨p, u, v, hs.2, h⟩

theorem search_cls_iff (cc : CharClass) (s : List Char) :
    (cls cc).search s = true ↔ ∃ c ∈ s, cc.test c = true := by
  rw [search_iff]
  constructor
  · rintro ⟨p, u, v, hs, c, hu, hc⟩
    refine ⟨c, ?_, hc⟩
    rw [hs, hu]
    simp
  · rintro ⟨c, hmem, hc⟩
    obtain ⟨p, v, hs⟩ := List.append_of_mem hmem
    exact ⟨p, [c], v, by simp [hs], c, rfl, hc⟩

theorem search_plus_cls_iff (cc : CharClass) (s : List Char) :
    (plus (cls cc)).search s = true ↔ ∃ c ∈ s, cc.test c = true := by
  rw [search_iff]
  constructor
  · rintro ⟨p, u, v, hs, u1, u2, hu, ⟨c, hu1, hc⟩, _⟩
    refine ⟨c, ?_, hc⟩
    rw [hs, hu, hu1]
    simp
  · rintro ⟨c, hmem, hc⟩
    obtain ⟨p, v, hs⟩ := List.append_of_mem hmem
    refine ⟨p, [c], v, by simp [hs], [c], [], by simp, ⟨c, rfl, hc⟩, [], rfl, ?_⟩
    intro u hu
    simp at hu

theorem search_rep_three_cls_iff (cc : CharClass) (s : List Char) :
    (rep (cls cc) 3).search s = true ↔
      ∃ p a b c v, s = p ++ a :: b :: c :: v ∧
        cc.test a = true ∧ cc.test b = true ∧ cc.test c = true := by
  rw [search_iff]
  constructor
  · rintro ⟨p, u, v, hs, u1, r1, hu, ⟨a, hu1, ha⟩, u2, r2, hr1, ⟨b, hu2, hb⟩,
      u3, r3, hr2, ⟨c, hu3, hc⟩, hr3⟩
    simp only [Matches] at hr3
    refine ⟨p, a, b, c, v, ?_, ha, hb, hc⟩
    rw [hs, hu, hu1, hr1, hu2, hr2, hu3, hr3]
    simp
  · rintro ⟨p, a, b, c, v, hs, ha, hb, hc⟩
    exact ⟨p, [a, b, c], v, by simp [hs], [a], [b, c], rfl, ⟨a, rfl, ha⟩,
      [b], [c], rfl, ⟨b, rfl, hb⟩, [c], [], rfl, ⟨c, rfl, hc⟩, rfl⟩

end Regexp

/-! ## The three patterns of the program -/

theorem alnum_test (c : Char) :
    CharClass.test ⟨false, [('0', '9'), ('a', 'z'), ('A', 'Z')]⟩ c = c.isAlphanum := by
  simp only [CharClass.test, List.any, Char.isAlphanum, Char.isAlpha, Char.isUpper,
    Char.isLower, Char.isDigit, Char.le_def, Bool.false_xor, Bool.or_false]
  have h0 : '0'.val = 48 := rfl
  have h9 : '9'.val = 57 := rfl
  have ha : 'a'.val = 97 := rfl
  have hz : 'z'.val = 122 := rfl
  have hA : 'A'.val = 65 := rfl
  have hZ : 'Z'.val = 90 := rfl
  rw [h0, h9, ha, hz, hA, hZ]
  simp only [ge_iff_le]
  generalize (decide (48 ≤ c.val) && decide (c.val ≤ 57)) = d
  generalize (decide (97 ≤ c.val) && decide (c.val ≤ 122)) = l
  generalize (decide (65 ≤ c.val) && decide (c.val ≤ 90)) = u
  cases d <;> cases l <;> cases u <;> rfl

theorem digit_test (c : Char) :
    CharClass.test ⟨false, [('0', '9')]⟩ c = c.isDigit := by
  simp only [CharClass.test, List.any, Char.isDigit, Char.le_def, Bool.false_xor,
    Bool.or_false]
  rfl

theorem blank_test (c : Char) :
    CharClass.test ⟨true, [(' ', ' '), ('\t', '\t'), ('\r', '\r'), ('\n', '\n'),
      (Char.ofNat 11, Char.ofNat 11), (Char.ofNat 12, Char.ofNat 12)]⟩ c = true ↔
      c ∉ [' ', '\t', '\r', '\n', Char.ofNat 11, Char.ofNat 12] := by
  have key : ∀ d : Char, (decide (d ≤ c) && decide (c ≤ d)) = decide (c = d) := by
    intro d
    rw [Bool.eq_iff_iff]
    simp only [Bool.and_eq_true, decide_eq_true_eq]
    constructor
    · rintro ⟨h1, h2⟩
      exact Char.le_antisymm h2 h1
    · intro h
      rw [h]
      exact ⟨Char.le_refl _, Char.le_refl _⟩
  simp only [CharClass.test, List.any, key]
  simp

theorem pathRegexp_MatchString (s : String) :
    pathRegexp.MatchString s = true ↔ ∃ c ∈ s.data, c.isAlphanum = true := by
  unfold pathRegexp Regexp.MatchString
  rw [Regexp.search_plus_cls_iff]
  simp only [alnum_test]

theorem locationRegexp_MatchString (s : String) :
    locationRegexp.MatchString s = true ↔
      ∃ c ∈ s.data, c ∉ [' ', '\t', '\r', '\n', Char.ofNat 11, Char.ofNat 12] := by
  unfold locationRegexp Regexp.MatchString
  rw [Regexp.search_cls_iff]
  simp only [blank_test]

theorem codeRegexp_MatchString (s : String) :
    codeRegexp.MatchString s = true ↔
      ∃ p a b c v, s.data = p ++ a :: b :: c :: v ∧
        a.isDigit = true ∧ b.isDigit = true ∧ c.isDigit = true := by
  unfold codeRegexp Regexp.MatchString
  rw [Regexp.search_rep_three_cls_iff]
  simp only [digit_test]

/-! ## The four ways through `record` -/

section Paths
variable {Item : Type}

theorem record_of_bad_path (env : Env Item) (req : APIGatewayProxyRequest)
    (h : pathRegexp.MatchString req.Path = false) :
    record env req = clientError StatusBadRequest [] := by
  simp [record, h]

theorem record_of_parse_error (env : Env Item) (req : APIGatewayProxyRequest) (e : GoError)
    (h : pathRegexp.MatchString req.Path = true) (he : Atoi (respCode req) = .error e) :
    record env req = serverError e [] := by
  simp [record, h, he]

theorem record_of_put_error (env : Env Item) (req : APIGatewayProxyRequest) (n : Int)
    (e : GoError) (h : pathRegexp.MatchString req.Path = true)
    (hn : Atoi (respCode req) = .ok n) (hp : (putItem env (cl env req)).1 = some e) :
    record env req =
      serverError e [Call.putItem "Clients" (env.MarshalMap (cl env req)).1] := by
  simp only [putItem] at hp
  simp [record, h, hn, jsonMarshalClient, putItem, hp]

theorem record_of_success (env : Env Item) (req : APIGatewayProxyRequest) (n : Int)
    (h : pathRegexp.MatchString req.Path = true)
    (hn : Atoi (respCode req) = .ok n) (hp : (putItem env (cl env req)).1 = none) :
    record env req =
      { resp := { StatusCode := n, Headers := header req,
                  Body := String.mk (jsonClient (cl env req)) },
        err := none,
        calls := [Call.putItem "Clients" (env.MarshalMap (cl env req)).1],
        logged := [] } := by
  simp only [putItem] at hp
  simp [record, h, hn, jsonMarshalClient, putItem, hp]

end Paths

/-! ## `strconv.Atoi` on the codes the program parses -/

theorem isDigit_bounds (c : Char) (h : c.isDigit = true) : 48 ≤ c.toNat ∧ c.toNat ≤ 57 := by
  simp only [Char.isDigit, Bool.and_eq_true, decide_eq_true_eq, ge_iff_le] at h
  exact ⟨h.1, h.2⟩

theorem Atoi_default : Atoi "200" = .ok 200 := by rfl

theorem Atoi_three_digits (a b c : Char) (ha : a.isDigit = true) (hb : b.isDigit = true)
    (hc : c.isDigit = true) :
    Atoi (String.mk [a, b, c]) =
      .ok (100 * ((a.toNat : Int) - 48) + 10 * ((b.toNat : Int) - 48) + ((c.toNat : Int) - 48)) := by
  have ba := isDigit_bounds a ha
  have bb := isDigit_bounds b hb
  have bc := isDigit_bounds c hc
  have hm : a ≠ '-' := by
    intro h
    rw [h] at ba
    revert ba
    decide
  have hp : a ≠ '+' := by
    intro h
    rw [h] at ba
    revert ba
    decide
  unfold Atoi
  split
  · rename_i heq
    simp only [List.cons.injEq] at heq
    exact absurd heq.1 hm
  · rename_i heq
    simp only [List.cons.injEq] at heq
    exact absurd heq.1 hp
  · simp only [List.isEmpty_cons, List.all_cons, ha, hb, hc, List.all_nil, Bool.and_self,
      Bool.not_true, Bool.or_self, Bool.false_eq_true, if_false, digitsValue, List.foldl]
    have h0 : '0'.toNat = 48 := rfl
    have hlt : ¬ (10 * (10 * (10 * 0 + (a.toNat - '0'.toNat)) + (b.toNat - '0'.toNat))
        + (c.toNat - '0'.toNat) ≥ 2 ^ 63) := by
      rw [h0]
      norm_num
      omega
    simp only [Bool.not_false, Bool.true_and, decide_eq_true_eq, hlt, if_false,
      Bool.false_and, Bool.false_eq_true]
    congr 1
    rw [h0]
    omega

/-! ## Auxiliary facts on the pieces of `record` -/

theorem serverError_resp {Item : Type} (e : GoError) (calls : List (Call Item)) :
    (serverError e calls).resp = ⟨500, [], "Internal Server Error"⟩ := by
  rfl

theorem utf8ByteSize_go_pos (c : Char) (cs : List Char) :
    0 < String.utf8ByteSize.go (c :: cs) := by
  have h := Char.utf8Size_pos c
  simp only [String.utf8ByteSize.go]
  omega

theorem utf8ByteSize_ne_zero (s : String) (c : Char) (h : c ∈ s.data) :
    s.utf8ByteSize ≠ 0 := by
  obtain ⟨l⟩ := s
  cases l with
  | nil => simp at h
  | cons d l =>
    have hpos := utf8ByteSize_go_pos d l
    simp only [String.utf8ByteSize]
    omega

theorem respCode_of_no_digits (req : APIGatewayProxyRequest)
    (h : ¬ ∃ p a b c v, (mapIndex req.QueryStringParameters "code").data = p ++ a :: b :: c :: v ∧
      a.isDigit = true ∧ b.isDigit = true ∧ c.isDigit = true) :
    respCode req = "200" := by
  have hm : codeRegexp.MatchString (mapIndex req.QueryStringParameters "code") = false := by
    rw [← Bool.not_eq_true, codeRegexp_MatchString]
    exact h
  simp [respCode, hm]

theorem respCode_of_three_digits (req : APIGatewayProxyRequest) (a b c : Char)
    (ha : a.isDigit = true) (hb : b.isDigit = true) (hc : c.isDigit = true)
    (h : mapIndex req.QueryStringParameters "code" = String.mk [a, b, c]) :
    respCode req = String.mk [a, b, c] := by
  have hm : codeRegexp.MatchString (mapIndex req.QueryStringParameters "code") = true := by
    rw [codeRegexp_MatchString]
    exact ⟨[], a, b, c, [], by rw [h]; rfl, ha, hb, hc⟩
  rw [h] at hm
  simp [respCode, hm, h]

theorem header_redirect (req : APIGatewayProxyRequest)
    (hc : ∃ c ∈ (mapIndex req.QueryStringParameters "location").data,
      c ∉ [' ', '\t', '\r', '\n', Char.ofNat 11, Char.ofNat 12])
    (hn : mapIndex req.QueryStringParameters "location" ≠ "/none") :
    header req = [("Location", mapIndex req.QueryStringParameters "location"),
      ("X-RFPing-Received", "REDIR")] := by
  have hm := (locationRegexp_MatchString _).mpr hc
  obtain ⟨c, hmem, _⟩ := hc
  have hz := utf8ByteSize_ne_zero _ c hmem
  simp [header, location, hm, hn, hz]

theorem header_plain (req : APIGatewayProxyRequest)
    (h : ¬ ((∃ c ∈ (mapIndex req.QueryStringParameters "location").data,
        c ∉ [' ', '\t', '\r', '\n', Char.ofNat 11, Char.ofNat 12]) ∧
      mapIndex req.QueryStringParameters "location" ≠ "/none")) :
    header req = [("X-RFPing-Received", "OK")] := by
  by_cases hm : locationRegexp.MatchString (mapIndex req.QueryStringParameters "location") = true
  · have hc := (locationRegexp_MatchString _).mp hm
    have hn : mapIndex req.QueryStringParameters "location" = "/none" := by
      by_contra hne
      exact h ⟨hc, hne⟩
    simp [header, location, hm, hn]
  · simp [header, location, hm]

theorem header_ne_nil (req : APIGatewayProxyRequest) : header req ≠ [] := by
  unfold header
  simp only
  split <;> simp

/-! ## The JSON text of a record -/

theorem jsonEscapeChar_of_plain (c : Char) (h32 : 32 ≤ c.toNat)
    (hc : c ∉ ['"', '\\', '<', '>', '&', Char.ofNat 8232, Char.ofNat 8233]) :
    jsonEscapeChar c = [c] := by
  simp only [List.mem_cons, List.mem_singleton, List.not_mem_nil, or_false, not_or] at hc
  obtain ⟨h1, h2, h3, h4, h5, h6, h7⟩ := hc
  have e8 : c ≠ Char.ofNat 8 := by
    intro h
    rw [h] at h32
    revert h32
    decide
  have e12 : c ≠ Char.ofNat 12 := by
    intro h
    rw [h] at h32
    revert h32
    decide
  have en : c ≠ '\n' := by
    intro h
    rw [h] at h32
    revert h32
    decide
  have er : c ≠ '\r' := by
    intro h
    rw [h] at h32
    revert h32
    decide
  have et : c ≠ '\t' := by
    intro h
    rw [h] at h32
    revert h32
    decide
  have hlt : ¬ c.toNat < 32 := by omega
  simp [jsonEscapeChar, h1, h2, h3, h4, h5, h6, h7, e8, e12, en, er, et, hlt]

theorem jsonEscape_of_plain (s : List Char)
    (h : ∀ c ∈ s, 32 ≤ c.toNat ∧
      c ∉ ['"', '\\', '<', '>', '&', Char.ofNat 8232, Char.ofNat 8233]) :
    jsonEscape s = s := by
  induction s with
  | nil => rfl
  | cons c s ih =>
    have hc := h c (List.mem_cons_self _ _)
    have hs : jsonEscape s = s := ih (fun d hd => h d (List.mem_cons_of_mem _ hd))
    have hstep : jsonEscape (c :: s) = jsonEscapeChar c ++ jsonEscape s := by
      simp [jsonEscape]
    rw [hstep, hs, jsonEscapeChar_of_plain c hc.1 hc.2]
    rfl

theorem jsonEscape_path_infix (c : Client) : jsonEscape c.Path.data <:+: jsonClient c := by
  refine ⟨"\x7b\"Uuid\":".data ++ jsonString c.UUID ++ ",\"Path\":".data ++ ['"'],
    ['"'] ++ ",\"IP\":".data ++ jsonString c.IP ++ ",\"Time\":".data ++ jsonString c.Time
      ++ "\x7d".data, ?_⟩
  simp [jsonClient, jsonString]

/-! ## The slice built by `listItems` -/

theorem foldl_goAppend_some {Item : Type} (f : Item → Client) (items : List Item) :
    ∀ l : List Client,
      items.foldl (fun arr i => goAppend arr (f i)) (some l) = some (l ++ items.map f) := by
  induction items with
  | nil => intro l; simp
  | cons i items ih =>
    intro l
    have hstep : goAppend (some l) (f i) = some (l ++ [f i]) := rfl
    rw [List.foldl_cons, hstep, ih]
    simp

theorem foldl_goAppend_none {Item : Type} (f : Item → Client) (i : Item) (items : List Item) :
    (i :: items).foldl (fun arr j => goAppend arr (f j)) none = some ((i :: items).map f) := by
  have hstep : goAppend none (f i) = some [f i] := rfl
  rw [List.foldl_cons, hstep, foldl_goAppend_some]
  simp

section Listing
variable {Item : Type}

theorem list_of_scan_error (env : Env Item) (req : APIGatewayProxyRequest) (e : GoError)
    (h : env.Scan "Clients" = .error e) :
    list env req = serverError e [Call.scan "Clients"] := by
  simp [list, listItems, h]

theorem list_of_scan_items (env : Env Item) (req : APIGatewayProxyRequest) (i : Item)
    (items : List Item) (h : env.Scan "Clients" = .ok (i :: items)) :
    (list env req).resp =
      { StatusCode := 200, Headers := [],
        Body := String.mk ('[' :: (List.intersperse [',']
          (((i :: items).map fun j => (env.UnmarshalMap j).1).map jsonClient)).flatten
            ++ [']']) } := by
  simp only [list, listItems, h, foldl_goAppend_none, jsonMarshalClients]
  rfl

theorem list_of_scan_nothing (env : Env Item) (req : APIGatewayProxyRequest)
    (h : env.Scan "Clients" = .ok []) :
    list env req =
      { resp := { StatusCode := 200, Headers := [], Body := "null" }, err := none,
        calls := [Call.scan "Clients"], logged := [] } := by
  simp only [list, listItems, h, List.foldl_nil, jsonMarshalClients]
  rfl

end Listing

/-! ## Properties of `record`, `list` and `router` -/

section Claims
variable {Item : Type}

/-- C1: a request whose path has no ASCII alphanumeric character is answered by `record`
with status 400, the body "Bad Request" and no headers, whatever its query parameters,
and no call is made to the storage service. -/
theorem record_rejects_path_without_alphanumeric (env : Env Item)
    (req : APIGatewayProxyRequest) (h : ∀ c ∈ req.Path.data, c.isAlphanum = false) :
    (record env req).resp = ⟨400, [], "Bad Request"⟩ ∧ (record env req).err = none ∧
      (record env req).calls = [] := by
  have hm : pathRegexp.MatchString req.Path = false := by
    rw [← Bool.not_eq_true, pathRegexp_MatchString]
    rintro ⟨c, hc, hal⟩
    rw [h c hc] at hal
    exact Bool.false_ne_true hal
  rw [record_of_bad_path env req hm]
  exact ⟨rfl, rfl, rfl⟩

/-- Where the default code is taken: with a valid path and a succeeding storage write,
a `code` parameter that is absent or in which `codeRegexp` finds no match is replaced by
"200", and the response status is 200. -/
theorem record_defaults_code_without_three_digits (env : Env Item)
    (req : APIGatewayProxyRequest) (hpath : ∃ c ∈ req.Path.data, c.isAlphanum = true)
    (hput : (putItem env (cl env req)).1 = none)
    (hcode : req.QueryStringParameters.lookup "code" = none ∨
      ¬ ∃ p a b c v, (mapIndex req.QueryStringParameters "code").data = p ++ a :: b :: c :: v ∧
        a.isDigit = true ∧ b.isDigit = true ∧ c.isDigit = true) :
    respCode req = "200" ∧ (record env req).resp.StatusCode = 200 := by
  have hno : ¬ ∃ p a b c v,
      (mapIndex req.QueryStringParameters "code").data = p ++ a :: b :: c :: v ∧
        a.isDigit = true ∧ b.isDigit = true ∧ c.isDigit = true := by
    rcases hcode with habs | h
    · rintro ⟨p, a, b, c, v, hd, _⟩
      simp [mapIndex, habs] at hd
    · exact h
  have hr := respCode_of_no_digits req hno
  have hm := (pathRegexp_MatchString req.Path).mpr hpath
  have hn : Atoi (respCode req) = .ok 200 := by rw [hr]; exact Atoi_default
  refine ⟨hr, ?_⟩
  rw [record_of_success env req 200 hm hn hput]

/-- C3: with a valid path and a succeeding storage write, a `code` parameter of exactly
three decimal digits d1 d2 d3 gives the response status 100*d1 + 10*d2 + d3, whatever
the `location` parameter is. -/
theorem record_status_of_three_digit_code (env : Env Item) (req : APIGatewayProxyRequest)
    (a b c : Char) (hpath : ∃ x ∈ req.Path.data, x.isAlphanum = true)
    (hput : (putItem env (cl env req)).1 = none)
    (ha : a.isDigit = true) (hb : b.isDigit = true) (hc : c.isDigit = true)
    (hcode : mapIndex req.QueryStringParameters "code" = String.mk [a, b, c]) :
    (record env req).resp.StatusCode =
      100 * ((a.toNat : Int) - 48) + 10 * ((b.toNat : Int) - 48) + ((c.toNat : Int) - 48) := by
  have hm := (pathRegexp_MatchString req.Path).mpr hpath
  have hn := Atoi_three_digits a b c ha hb hc
  rw [← respCode_of_three_digits req a b c ha hb hc hcode] at hn
  rw [record_of_success env req _ hm hn hput]

/-- C4: on a successful `record` (valid path, code that parses, storage write that
succeeds), a `location` parameter with a character other than space, \t, \r, \n, \v, \f
that is not the literal "/none" gives exactly the headers Location (the parameter,
unmodified) and X-RFPing-Received: REDIR; any other `location` (absent, empty, blank or
"/none") gives exactly the header X-RFPing-Received: OK. -/
theorem record_headers (env : Env Item) (req : APIGatewayProxyRequest) (n : Int)
    (hpath : ∃ c ∈ req.Path.data, c.isAlphanum = true)
    (hcode : Atoi (respCode req) = .ok n)
    (hput : (putItem env (cl env req)).1 = none) :
    (((∃ c ∈ (mapIndex req.QueryStringParameters "location").data,
          c ∉ [' ', '\t', '\r', '\n', Char.ofNat 11, Char.ofNat 12]) ∧
        mapIndex req.QueryStringParameters "location" ≠ "/none") →
      (record env req).resp.Headers =
        [("Location", mapIndex req.QueryStringParameters "location"),
          ("X-RFPing-Received", "REDIR")]) ∧
    (¬ ((∃ c ∈ (mapIndex req.QueryStringParameters "location").data,
          c ∉ [' ', '\t', '\r', '\n', Char.ofNat 11, Char.ofNat 12]) ∧
        mapIndex req.QueryStringParameters "location" ≠ "/none") →
      (record env req).resp.Headers = [("X-RFPing-Received", "OK")]) ∧
    (req.QueryStringParameters.lookup "location" = none →
      (record env req).resp.Headers = [("X-RFPing-Received", "OK")]) := by
  have hm := (pathRegexp_MatchString req.Path).mpr hpath
  rw [record_of_success env req n hm hcode hput]
  refine ⟨fun h => header_redirect req h.1 h.2, fun h => header_plain req h, fun h => ?_⟩
  apply header_plain
  rintro ⟨⟨c, hc, _⟩, _⟩
  simp [mapIndex, h] at hc

/-- C5, as amended: with a path that has an ASCII alphanumeric character, a (defaulted)
code that parses as an integer and a succeeding storage write, `record` returns neither
the 400 nor the 500 error response, and its body is the JSON text of the record: it
contains the JSON-escaped path, hence the exact path whenever no character of the path
is one that JSON escapes (a control character, the quote, the backslash, `<`, `>`, `&`,
U+2028, U+2029). -/
theorem record_succeeds_with_path_in_body (env : Env Item) (req : APIGatewayProxyRequest)
    (n : Int) (hpath : ∃ c ∈ req.Path.data, c.isAlphanum = true)
    (hcode : Atoi (respCode req) = .ok n)
    (hput : (putItem env (cl env req)).1 = none) :
    (record env req).resp ≠ ⟨400, [], "Bad Request"⟩ ∧
    (record env req).resp ≠ ⟨500, [], "Internal Server Error"⟩ ∧
    (record env req).resp.Body = String.mk (jsonClient (cl env req)) ∧
    jsonEscape req.Path.data <:+: (record env req).resp.Body.data ∧
    ((∀ c ∈ req.Path.data, 32 ≤ c.toNat ∧
        c ∉ ['"', '\\', '<', '>', '&', Char.ofNat 8232, Char.ofNat 8233]) →
      req.Path.data <:+: (record env req).resp.Body.data) := by
  have hm := (pathRegexp_MatchString req.Path).mpr hpath
  rw [record_of_success env req n hm hcode hput]
  have hh := header_ne_nil req
  have hin : jsonEscape req.Path.data <:+: jsonClient (cl env req) :=
    jsonEscape_path_infix (cl env req)
  refine ⟨?_, ?_, rfl, hin, ?_⟩
  · intro h
    injection h with _ h2 _
    exact hh h2
  · intro h
    injection h with _ h2 _
    exact hh h2
  · intro hplain
    have he := jsonEscape_of_plain req.Path.data hplain
    rw [he] at hin
    exact hin

/-- C6: `router` looks at the method only: "OPTIONS" gets the result of `list`, every
other method string gets the result of `record`, whatever the path and the query. -/
theorem router_dispatches_on_method (env : Env Item) (req : APIGatewayProxyRequest) :
    (req.HTTPMethod = "OPTIONS" → router env req = list env req) ∧
    (req.HTTPMethod ≠ "OPTIONS" → router env req = record env req) := by
  constructor
  · intro h
    simp [router, h]
  · intro h
    simp [router, h]

/-- C7: with a valid path, when the (defaulted) code does not parse as an integer or the
storage write fails, `record` returns exactly status 500, body "Internal Server Error",
no headers, and a nil transport error; when it is the parse that fails, no call is made
to the storage service. -/
theorem record_server_error (env : Env Item) (req : APIGatewayProxyRequest)
    (hpath : ∃ c ∈ req.Path.data, c.isAlphanum = true)
    (hfail : (∃ e, Atoi (respCode req) = .error e) ∨ (putItem env (cl env req)).1 ≠ none) :
    (record env req).resp = ⟨500, [], "Internal Server Error"⟩ ∧
    (record env req).err = none ∧
    ((∃ e, Atoi (respCode req) = .error e) → (record env req).calls = []) := by
  have hm := (pathRegexp_MatchString req.Path).mpr hpath
  cases hn : Atoi (respCode req) with
  | error e =>
    rw [record_of_parse_error env req e hm hn]
    exact ⟨rfl, rfl, fun _ => rfl⟩
  | ok n =>
    have hne : (putItem env (cl env req)).1 ≠ none := by
      rcases hfail with ⟨e, he⟩ | h
      · rw [hn] at he
        cases he
      · exact h
    cases hp : (putItem env (cl env req)).1 with
    | none => exact absurd hp hne
    | some e =>
      rw [record_of_put_error env req n e hm hn hp]
      refine ⟨rfl, rfl, ?_⟩
      rintro ⟨e2, he2⟩
      cases he2

/-- C8, as amended: a successful `record` makes exactly one storage call, the write of
the record whose JSON text is the response body; the Path of that record is the request
path, which matched the path pattern, its IP the source IP of the request, its Uuid the
generated identifier (non-empty when the generator's output is), its Time the generated
time string; and whenever `record` answers with the 400 client-error response (status
400, no headers, body "Bad Request") no record is written. -/
theorem record_writes_the_record_of_the_body (env : Env Item)
    (req : APIGatewayProxyRequest) :
    (∀ n : Int, (∃ c ∈ req.Path.data, c.isAlphanum = true) →
      Atoi (respCode req) = .ok n → (putItem env (cl env req)).1 = none →
        (record env req).calls = [Call.putItem "Clients" (env.MarshalMap (cl env req)).1] ∧
        (record env req).resp.Body = (jsonMarshalClient (cl env req)).1 ∧
        (cl env req).Path = req.Path ∧
        pathRegexp.MatchString (cl env req).Path = true ∧
        (cl env req).IP = req.RequestContext.Identity.SourceIP ∧
        (cl env req).UUID = env.uuid ∧
        (env.uuid ≠ "" → (cl env req).UUID ≠ "") ∧
        (cl env req).Time = env.now) ∧
    ((record env req).resp = ⟨400, [], "Bad Request"⟩ → (record env req).calls = []) := by
  constructor
  · intro n hpath hcode hput
    have hm := (pathRegexp_MatchString req.Path).mpr hpath
    rw [record_of_success env req n hm hcode hput]
    exact ⟨rfl, rfl, rfl, hm, rfl, rfl, fun h => h, rfl⟩
  · cases hm : pathRegexp.MatchString req.Path with
    | false =>
      rw [record_of_bad_path env req hm]
      intro _
      rfl
    | true =>
      cases hn : Atoi (respCode req) with
      | error e =>
        rw [record_of_parse_error env req e hm hn]
        intro _
        rfl
      | ok n =>
        cases hp : (putItem env (cl env req)).1 with
        | some e =>
          rw [record_of_put_error env req n e hm hn hp, serverError_resp]
          intro h
          injection h with h1 _ _
          exact absurd h1 (by decide)
        | none =>
          rw [record_of_success env req n hm hn hp]
          intro h
          injection h with _ h2 _
          exact absurd h2 (header_ne_nil req)

/-- C9, at the empty table: when the scan succeeds with no item, `list` answers with
status 200 and the body `null`, which is not the empty JSON array. -/
theorem list_empty_table_body_is_null (env : Env Item) (req : APIGatewayProxyRequest)
    (h : env.Scan "Clients" = .ok []) :
    (list env req).resp = ⟨200, [], "null"⟩ ∧ (list env req).resp.Body ≠ "[]" := by
  rw [list_of_scan_nothing env req h]
  have hne : "null" ≠ "[]" := by decide
  exact ⟨rfl, hne⟩

end Claims

/-! ## Evaluations on concrete requests -/

set_option maxRecDepth 100000

theorem record_rejects_path_without_alphanumeric_witness :
    (∀ c ∈ (sampleRequest "GET" "///" [("code", "404"), ("location", "https://x.test")]).Path.data,
        c.isAlphanum = false) ∧
      (record (memEnv [] none none)
        (sampleRequest "GET" "///" [("code", "404"), ("location", "https://x.test")])).resp
          = ⟨400, [], "Bad Request"⟩ ∧
      (record (memEnv [] none none)
        (sampleRequest "GET" "///" [("code", "404"), ("location", "https://x.test")])).err
          = none ∧
      (record (memEnv [] none none)
        (sampleRequest "GET" "///" [("code", "404"), ("location", "https://x.test")])).calls
          = [] :=
  ⟨by decide, record_rejects_path_without_alphanumeric (memEnv [] none none)
    (sampleRequest "GET" "///" [("code", "404"), ("location", "https://x.test")]) (by decide)⟩

/-- C2, at the failing inputs: with a valid path and a succeeding storage write, the
codes "1234", "-123" and "a123" are not exactly three digits, yet `codeRegexp` finds three
digits inside them and `record` does not take "200": it answers with status 1234, with
status -123 and with the 500 error response; the code "12" does get the default. -/
theorem record_keeps_code_with_three_digits_inside :
    respCode (sampleRequest "GET" "/a1" [("code", "1234")]) = "1234" ∧
    (record (memEnv [] none none) (sampleRequest "GET" "/a1" [("code", "1234")])).resp.StatusCode
      = 1234 ∧
    respCode (sampleRequest "GET" "/a1" [("code", "-123")]) = "-123" ∧
    (record (memEnv [] none none) (sampleRequest "GET" "/a1" [("code", "-123")])).resp.StatusCode
      = -123 ∧
    respCode (sampleRequest "GET" "/a1" [("code", "a123")]) = "a123" ∧
    (record (memEnv [] none none) (sampleRequest "GET" "/a1" [("code", "a123")])).resp
      = ⟨500, [], "Internal Server Error"⟩ ∧
    respCode (sampleRequest "GET" "/a1" [("code", "12")]) = "200" ∧
    (record (memEnv [] none none) (sampleRequest "GET" "/a1" [("code", "12")])).resp.StatusCode
      = 200 := by
  decide

theorem record_status_of_three_digit_code_witness :
    (record (memEnv [] none none)
      (sampleRequest "GET" "/b2" [("code", "301"), ("location", "/c3")])).resp.StatusCode = 301 :=
  record_status_of_three_digit_code (memEnv [] none none)
    (sampleRequest "GET" "/b2" [("code", "301"), ("location", "/c3")]) '3' '0' '1'
    (by decide) (by decide) (by decide) (by decide) (by decide) (by decide)

theorem record_headers_witness :
    (record (memEnv [] none none)
      (sampleRequest "GET" "/b2" [("code", "301"), ("location", "https://x.test")])).resp.Headers
        = [("Location", "https://x.test"), ("X-RFPing-Received", "REDIR")] ∧
    (record (memEnv [] none none)
      (sampleRequest "GET" "/b2" [("location", " \t")])).resp.Headers
        = [("X-RFPing-Received", "OK")] ∧
    (record (memEnv [] none none)
      (sampleRequest "GET" "/b2" [("location", "/none")])).resp.Headers
        = [("X-RFPing-Received", "OK")] ∧
    (record (memEnv [] none none) (sampleRequest "GET" "/b2" [])).resp.Headers
        = [("X-RFPing-Received", "OK")] :=
  ⟨(record_headers (memEnv [] none none)
      (sampleRequest "GET" "/b2" [("code", "301"), ("location", "https://x.test")]) 301
      (by decide) rfl (by decide)).1 (by decide),
   (record_headers (memEnv [] none none)
      (sampleRequest "GET" "/b2" [("location", " \t")]) 200
      (by decide) rfl (by decide)).2.1 (by decide),
   (record_headers (memEnv [] none none)
      (sampleRequest "GET" "/b2" [("location", "/none")]) 200
      (by decide) rfl (by decide)).2.1 (by decide),
   (record_headers (memEnv [] none none) (sampleRequest "GET" "/b2" []) 200
      (by decide) rfl (by decide)).2.2 (by decide)⟩

/-- C5, as stated, fails twice: with the valid path "/a1", a succeeding storage write and
the code "a123", `record` returns the 500 error response; and with the valid path "/a&b"
the body of the successful response does not contain "/a&b", the ampersand being written
as a JSON escape. -/
theorem record_success_counterexample :
    (record (memEnv [] none none) (sampleRequest "GET" "/a1" [("code", "a123")])).resp
      = ⟨500, [], "Internal Server Error"⟩ ∧
    (record (memEnv [] none none) (sampleRequest "GET" "/a&b" [])).resp.StatusCode = 200 ∧
    ¬ ("/a&b".data <:+:
      (record (memEnv [] none none) (sampleRequest "GET" "/a&b" [])).resp.Body.data) ∧
    "/a\\u0026b".data <:+:
      (record (memEnv [] none none) (sampleRequest "GET" "/a&b" [])).resp.Body.data := by
  decide

theorem record_succeeds_with_path_in_body_witness :
    (record (memEnv [] none none) (sampleRequest "GET" "/a1" [])).resp
      ≠ ⟨400, [], "Bad Request"⟩ ∧
    (record (memEnv [] none none) (sampleRequest "GET" "/a1" [])).resp
      ≠ ⟨500, [], "Internal Server Error"⟩ ∧
    "/a1".data <:+: (record (memEnv [] none none) (sampleRequest "GET" "/a1" [])).resp.Body.data :=
  ⟨(record_succeeds_with_path_in_body (memEnv [] none none) (sampleRequest "GET" "/a1" []) 200
      (by decide) rfl (by decide)).1,
   (record_succeeds_with_path_in_body (memEnv [] none none) (sampleRequest "GET" "/a1" []) 200
      (by decide) rfl (by decide)).2.1,
   (record_succeeds_with_path_in_body (memEnv [] none none) (sampleRequest "GET" "/a1" []) 200
      (by decide) rfl (by decide)).2.2.2.2 (by decide)⟩

theorem router_dispatches_on_method_witness :
    router (memEnv [] none none) (sampleRequest "OPTIONS" "/a1" [("code", "404")])
      = list (memEnv [] none none) (sampleRequest "OPTIONS" "/a1" [("code", "404")]) ∧
    router (memEnv [] none none) (sampleRequest "options" "/a1" [("code", "404")])
      = record (memEnv [] none none) (sampleRequest "options" "/a1" [("code", "404")]) ∧
    router (memEnv [] none none) (sampleRequest "" "/a1" [])
      = record (memEnv [] none none) (sampleRequest "" "/a1" []) :=
  ⟨(router_dispatches_on_method (memEnv [] none none)
      (sampleRequest "OPTIONS" "/a1" [("code", "404")])).1 (by decide),
   (router_dispatches_on_method (memEnv [] none none)
      (sampleRequest "options" "/a1" [("code", "404")])).2 (by decide),
   (router_dispatches_on_method (memEnv [] none none) (sampleRequest "" "/a1" [])).2
      (by decide)⟩

theorem record_server_error_witness :
    (record (memEnv [] none none)
      (sampleRequest "GET" "/a1" [("code", "a123"), ("location", "/c3")])).resp
        = ⟨500, [], "Internal Server Error"⟩ ∧
    (record (memEnv [] none none)
      (sampleRequest "GET" "/a1" [("code", "a123"), ("location", "/c3")])).calls = [] ∧
    (record (memEnv [] (some (GoError.aws "ProvisionedThroughputExceededException")) none)
      (sampleRequest "GET" "/a1" [("code", "301"), ("location", "/c3")])).resp
        = ⟨500, [], "Internal Server Error"⟩ :=
  ⟨(record_server_error (memEnv [] none none)
      (sampleRequest "GET" "/a1" [("code", "a123"), ("location", "/c3")]) (by decide)
      (Or.inl ⟨_, rfl⟩)).1,
   (record_server_error (memEnv [] none none)
      (sampleRequest "GET" "/a1" [("code", "a123"), ("location", "/c3")]) (by decide)
      (Or.inl ⟨_, rfl⟩)).2.2 ⟨_, rfl⟩,
   (record_server_error
      (memEnv [] (some (GoError.aws "ProvisionedThroughputExceededException")) none)
      (sampleRequest "GET" "/a1" [("code", "301"), ("location", "/c3")]) (by decide)
      (Or.inr (by decide))).1⟩

/-- C8, as stated, fails in its last clause: with the code "400" a successful `record`
answers with status 400, and its record is written. -/
theorem record_status_400_counterexample :
    (record (memEnv [] none none) (sampleRequest "GET" "/a1" [("code", "400")])).resp.StatusCode
      = 400 ∧
    (record (memEnv [] none none) (sampleRequest "GET" "/a1" [("code", "400")])).calls
      = [Call.putItem "Clients"
          ⟨"123e4567-e89b-42d3-a456-426614174000", "/a1", "203.0.113.7",
            "2020-05-01 10:00:00 +0000 UTC"⟩] := by
  decide

theorem record_writes_the_record_of_the_body_witness :
    (record (memEnv [] none none) (sampleRequest "GET" "/a1" [])).calls
      = [Call.putItem "Clients"
          ⟨"123e4567-e89b-42d3-a456-426614174000", "/a1", "203.0.113.7",
            "2020-05-01 10:00:00 +0000 UTC"⟩] ∧
    (record (memEnv [] none none) (sampleRequest "GET" "/a1" [])).resp.Body
      = "\x7b\"Uuid\":\"123e4567-e89b-42d3-a456-426614174000\",\"Path\":\"/a1\",\"IP\":\"203.0.113.7\",\"Time\":\"2020-05-01 10:00:00 +0000 UTC\"\x7d" ∧
    (record (memEnv [] none none) (sampleRequest "GET" "//" [("code", "400")])).calls = [] :=
  ⟨((record_writes_the_record_of_the_body (memEnv [] none none)
      (sampleRequest "GET" "/a1" [])).1 200 (by decide) rfl (by decide)).1,
   ((record_writes_the_record_of_the_body (memEnv [] none none)
      (sampleRequest "GET" "/a1" [])).1 200 (by decide) rfl (by decide)).2.1,
   (record_writes_the_record_of_the_body (memEnv [] none none)
      (sampleRequest "GET" "//" [("code", "400")])).2 (by decide)⟩

theorem list_empty_table_body_is_null_witness :
    (list (memEnv [] none none) (sampleRequest "OPTIONS" "/" [])).resp = ⟨200, [], "null"⟩ ∧
    (list (memEnv [] none none) (sampleRequest "OPTIONS" "/" [])).resp.Body ≠ "[]" :=
  list_empty_table_body_is_null (memEnv [] none none) (sampleRequest "OPTIONS" "/" []) rfl

end RFPing
